import Mathlib

/-!
Shallow embedding of `src/URLToDocument.py`, a script that downloads a CSV of
URLs, classifies each as PDF or HTML by URL suffix, extracts plain text and
accumulates one record per successfully processed URL.

The embedding models the Python string primitives the script uses
(`str.strip`, `str.splitlines`, `str.split`, `str.replace`,
`re.sub(' +', ' ', _)`, `pathlib.Path.stem` / `.suffix`) and the script's
functions (`getTextfromHTML`, `pdfToText`, `getTextFromFile`, `getUrl`,
`processURL`, and the row loop of `main`).  External effects (HTTP
responses, the filesystem, PyPDF2 page extraction) are modelled as explicit
oracle values passed in, so every function is executable.  All recursions
are structural, so closed evaluations reduce in the kernel.
-/

namespace URLToDocument

/-- The six ASCII characters Python's `str.strip()` removes (the script's
inputs are web text; we model the ASCII whitespace class). -/
def pyIsSpace (c : Char) : Bool :=
  c == ' ' || c == '\t' || c == '\n' || c == '\r' || c == '\x0b' || c == '\x0c'

/-- Python `str.strip()`: drop leading and trailing whitespace. -/
def pyStrip (s : String) : String :=
  String.mk (((s.toList.dropWhile pyIsSpace).reverse.dropWhile pyIsSpace).reverse)

/-- Auxiliary scanner for `str.splitlines` over a character list.
Recognises the line boundaries `\n`, `\r` and `\r\n`. -/
def splitlinesAux : List Char → List Char → List (List Char)
  | '\r' :: '\n' :: rest, acc => acc.reverse :: splitlinesAux rest []
  | '\r' :: rest, acc => acc.reverse :: splitlinesAux rest []
  | '\n' :: rest, acc => acc.reverse :: splitlinesAux rest []
  | c :: rest, acc => splitlinesAux rest (c :: acc)
  | [], [] => []
  | [], acc => [acc.reverse]

/-- Python `str.splitlines()`: no trailing empty line for a trailing
newline, and the empty string yields `[]`. -/
def pySplitlines (s : String) : List String :=
  (splitlinesAux s.toList []).map String.mk

/-- Python `str.split(sep)` for a one-character separator: split on every
occurrence, keeping empty pieces. -/
def splitOnChar (sep : Char) : List Char → List Char → List (List Char)
  | [], acc => [acc.reverse]
  | c :: rest, acc =>
      if c == sep then acc.reverse :: splitOnChar sep rest []
      else splitOnChar sep rest (c :: acc)

/-- Python `str.split("  ")`: split on each non-overlapping occurrence of
a double space, scanning left to right. -/
def splitDoubleSpace : List Char → List Char → List (List Char)
  | [], acc => [acc.reverse]
  | ' ' :: ' ' :: rest, acc => acc.reverse :: splitDoubleSpace rest []
  | c :: rest, acc => splitDoubleSpace rest (c :: acc)

/-- Python `str.replace(a, b)` for one-character `a` and `b`. -/
def replaceChar (a b : Char) (s : String) : String :=
  String.mk (s.toList.map (fun c => if c == a then b else c))

/-- Scanner for `re.sub(' +', ' ', _)`: collapse each maximal run of spaces
to a single space (`prev` records whether the previous kept character was
part of a space run). -/
def collapseAux : Bool → List Char → List Char
  | _, [] => []
  | prev, c :: rest =>
      if c == ' ' then
        if prev then collapseAux true rest
        else ' ' :: collapseAux true rest
      else c :: collapseAux false rest

/-- Model of `re.sub(' +', ' ', s)`. -/
def collapseSpaces (s : String) : String :=
  String.mk (collapseAux false s.toList)

/-- Whether the first list starts with the second. -/
def listStartsWith : List Char → List Char → Bool
  | _, [] => true
  | [], _ :: _ => false
  | a :: as, b :: bs => a == b && listStartsWith as bs

/-- Python `str.endswith`. -/
def strEndsWith (s t : String) : Bool :=
  listStartsWith s.toList.reverse t.toList.reverse

/-- Python `str.ljust`: pad with spaces on the right to the given width. -/
def pyLjust (s : String) (w : Nat) : String :=
  s ++ String.mk (List.replicate (w - s.length) ' ')

/-!  Models of `pathlib.PurePosixPath` name / stem / suffix, as the script applies
them to a whole URL string (`Path(url).stem`, `Path(url).suffix`). -/

/-- Model of `PurePosixPath(s).name`: the last path segment, after dropping empty
and `"."` segments (pathlib's parsing of `/`-separated components). -/
def pathName (s : String) : String :=
  ((((splitOnChar '/' s.toList []).map String.mk).filter
    (fun t => !(t == "") && !(t == "."))).getLast?).getD ""

/-- Index of the last `'.'` in a character list, if any. -/
def lastDotIdx (l : List Char) : Option Nat :=
  match l.reverse.findIdx? (fun c => c == '.') with
  | none => none
  | some j => some (l.length - 1 - j)

/-- Model of `PurePosixPath(s).suffix`: CPython returns `name[i:]` for `i` the last
dot index when `0 < i < len(name) - 1`, else the empty string. -/
def pathSuffix (s : String) : String :=
  let n := (pathName s).toList
  match lastDotIdx n with
  | some i => if 0 < i ∧ i < n.length - 1 then String.mk (n.drop i) else ""
  | none => ""

/-- Model of `PurePosixPath(s).stem`: `name[:i]` under the same condition, else the
whole name. -/
def pathStem (s : String) : String :=
  let n := (pathName s).toList
  match lastDotIdx n with
  | some i => if 0 < i ∧ i < n.length - 1 then String.mk (n.take i) else String.mk n
  | none => String.mk n

/-- The URL's path component in the sense of specification text about
URLs: everything before the first `?` (query-string separator).  This
follows the spec's words, for comparison with what the code computes
from the whole URL string. -/
def urlPathComponent (u : String) : String :=
  ((splitOnChar '?' u.toList []).map String.mk).headD u

/-!  HTML documents, as BeautifulSoup presents them to `getTextfromHTML`:
a forest of nodes, each either a text node or a tagged element with
children.  `soup(["script", "style"])` with `decompose()` removes every
script/style element together with its whole subtree; `get_text()`
concatenates the remaining text nodes in document order. -/

inductive HNode where
  | htext : String → HNode
  | helem : String → List HNode → HNode
deriving Repr, BEq

mutual

/-- Effect of `element.decompose()` applied when the tag is script or style:
`none` means the node is ripped out of the tree. -/
def decomposeN : HNode → Option HNode
  | .htext s => some (.htext s)
  | .helem tag children =>
      if tag == "script" || tag == "style" then none
      else some (.helem tag (decomposeList children))

/-- Remove all script and style elements from a forest. -/
def decomposeList : List HNode → List HNode
  | [] => []
  | n :: rest =>
      match decomposeN n with
      | none => decomposeList rest
      | some m => m :: decomposeList rest

end

mutual

/-- Model of `soup.get_text()` on one node: concatenation of its text nodes. -/
def getTextN : HNode → String
  | .htext s => s
  | .helem _ children => getTextLs children

/-- Model of `soup.get_text()` on a forest. -/
def getTextLs : List HNode → String
  | [] => ""
  | n :: rest => getTextN n ++ getTextLs rest

end

mutual

/-- The node contains no script or style element anywhere. -/
def cleanN : HNode → Bool
  | .htext _ => true
  | .helem tag cs => !(tag == "script") && !(tag == "style") && cleanL cs

/-- The forest contains no script or style element anywhere. -/
def cleanL : List HNode → Bool
  | [] => true
  | n :: rest => cleanN n && cleanL rest

end

/-- The chunk pipeline of `getTextfromHTML` (lines 57-62): split the raw
text into lines, strip each, split each line on a double space, strip
each phrase. -/
def htmlChunks (text : String) : List String :=
  (((pySplitlines text).map pyStrip).map
    (fun l => ((splitDoubleSpace l.toList []).map String.mk).map pyStrip)).flatten

/-- Model of `getTextfromHTML` (lines 43-63): decompose script/style elements,
take the document text, and rejoin the non-empty chunks with newlines. -/
def getTextfromHTML (doc : List HNode) : String :=
  let text := getTextLs (decomposeList doc)
  String.intercalate "\n" ((htmlChunks text).filter (fun c => !(c == "")))

/-!  The PDF side.  PyPDF2 reading is modelled by an oracle describing
what happens at each step of `pdfToText` (lines 65-102): the initial
`open` can raise (it sits above the `try`), `PdfFileReader` can raise
(caught: returns `""`), and otherwise each page's `extractText()` either
yields a string or raises (caught per page: that page is skipped). -/

inductive PdfOpen where
  | openFail
  | parseFail
  | pages (ps : List (Option String))
deriving Repr, BEq, DecidableEq

/-- The page-concatenation loop (lines 77-91): skip pages whose
`extractText()` raises, join page texts with a newline once nonempty. -/
def concatPages (ps : List (Option String)) : String :=
  ps.foldl (fun t p =>
    match p with
    | none => t
    | some s => if t == "" then s else t ++ "\n" ++ s) ""

/-- The cleanup of lines 99-102: commas to spaces, all line breaks joined
by single spaces, strip, collapse space runs. -/
def pdfClean (t : String) : String :=
  let t1 := replaceChar ',' ' ' t
  let t2 := String.intercalate " " (pySplitlines t1)
  collapseSpaces (pyStrip t2)

/-- The cleaned text that lines 99-102 compute for a successfully read
PDF (the value the function's docstring promises to return). -/
def pdfTextCleaned (ps : List (Option String)) : String :=
  pdfClean (concatPages ps)

/-- Model of `pdfToText` (lines 65-102).  `Except.error ()` models an exception
propagating to the caller; `Except.ok t` models a normal return of the
Python value `t` (`none` is Python `None`).  The `open` at line 72 is
above the `try`, so an open failure propagates; a reader failure returns
`""` from the `except` arm; on the successful path lines 99-102 compute
the cleaned text into a local variable and the function body then ends
with no `return` statement, so Python returns `None`. -/
def pdfToText : PdfOpen → Except Unit (Option String)
  | .openFail => .error ()
  | .parseFail => .ok (some "")
  | .pages ps =>
      let _cleaned := pdfTextCleaned ps
      .ok none

/-- Model of `getTextFromFile` (lines 104-114).  The file at the path is described
by both oracles: how it reads as a PDF and, for the other branch, the
parsed HTML forest (`none` when `open` raises there). -/
def getTextFromFile (ext : String) (asPdf : PdfOpen)
    (asHtml : Option (List HNode)) : Except Unit (Option String) :=
  if ext == ".pdf" then pdfToText asPdf
  else
    match asHtml with
    | none => .error ()
    | some doc => .ok (some (getTextfromHTML doc))

/-!  The fetcher.  `requests.get` either raises (network-level failure) or
yields a response with a status code and body; the script never inspects
the status, writes `response.content` to the output file, and returns
`True`; any exception (from the request or the file write) is caught and
`False` returned. -/

inductive FetchEvent where
  | netError
  | writeError (status : Nat) (body : String)
  | success (status : Nat) (body : String)
deriving Repr, BEq, DecidableEq

/-- Model of `getUrl` (lines 116-130): the returned boolean. -/
def getUrl : FetchEvent → Bool
  | .success _ _ => true
  | _ => false

/-- The destination file's content after `getUrl`: the response body
exactly when the write completed. -/
def fetchWritten : FetchEvent → Option String
  | .success _ b => some b
  | _ => none

/-!  Model of `processURL` (lines 132-159). -/

/-- The name/extension derivation of lines 140-149: strip the URL, take
`Path(url).stem` / `Path(url).suffix`, force any non-`.pdf` suffix to
`.html`, and replace `?` by `_` in the stem. -/
def deriveNameExt (url : String) : String × String :=
  let u := pyStrip url
  let ext0 := pathSuffix u
  let ext := if ext0 == ".pdf" then ext0 else ".html"
  let name := replaceChar '?' '_' (pathStem u)
  (name, ext)

/-- The file name `name+ext` used for the stored file (line 151,
relative to the files directory). -/
def fileNameOf (url : String) : String :=
  (deriveNameExt url).1 ++ (deriveNameExt url).2

/-- One record of the output table: the dict of lines 156-159.  `text` is
an `Option` because `getTextFromFile` can return Python `None`. -/
structure DocRecord where
  name : String
  ext : String
  url : String
  text : Option String
deriving Repr, BEq, DecidableEq

/-- Everything the outside world decides for one URL: the fetch outcome
and how the stored file reads back under each extractor. -/
structure UrlEnv where
  fetch : FetchEvent
  asPdf : PdfOpen
  asHtml : Option (List HNode)

/-- Model of `processURL` (lines 132-159): `Except.error ()` models an exception
escaping to `main`'s per-row `try`; `Except.ok none` models `return None`
after a failed fetch; `Except.ok (some d)` a returned record. -/
def processURL (url : String) (env : UrlEnv) : Except Unit (Option DocRecord) :=
  let u := pyStrip url
  let ne := deriveNameExt url
  if getUrl env.fetch then
    match getTextFromFile ne.2 env.asPdf env.asHtml with
    | .error e => .error e
    | .ok t => .ok (some { name := ne.1, ext := ne.2, url := u, text := t })
  else .ok none

/-!  Models of `main`'s row loop and column check (lines 186-208). -/

/-- The record a row contributes, if any: the loop appends `result` only
when `processURL` returns a truthy value; a raised exception is caught
and the row skipped. -/
def rowRecord (r : String × UrlEnv) : Option DocRecord :=
  match processURL r.1 r.2 with
  | .ok (some d) => some d
  | _ => none

/-- Whether the row yields a record. -/
def rowSuccess (r : String × UrlEnv) : Bool :=
  (rowRecord r).isSome

/-- One iteration of the loop of lines 197-205 acting on the accumulator
`content`. -/
def runRow (acc : List DocRecord) (r : String × UrlEnv) : List DocRecord :=
  match processURL r.1 r.2 with
  | .ok (some d) => acc ++ [d]
  | _ => acc

/-- The final `content` list after the loop. -/
def batchRecords (rows : List (String × UrlEnv)) : List DocRecord :=
  rows.foldl runRow []

/-- The file a row leaves in the files directory: `getUrl` writes the
response body to `name+ext` whenever the fetch succeeds, regardless of
what extraction later does. -/
def rowFile (r : String × UrlEnv) : Option String :=
  if getUrl r.2.fetch then some (fileNameOf r.1) else none

/-- All files written during the batch. -/
def batchFiles (rows : List (String × UrlEnv)) : List String :=
  rows.filterMap rowFile

/-- Model of `url_count` (line 189): `len(urls_df.index) + 1`. -/
def urlCount (rows : List (String × UrlEnv)) : Nat :=
  rows.length + 1

/-- The progress field of line 198: `(str(ind+1) + "/" + str(url_count))`
left-justified to width 10, for the 0-based row index `ind`. -/
def progressField (ind total : Nat) : String :=
  pyLjust (toString (ind + 1) ++ "/" ++ toString total) 10

/-- Outcome of a run of `main` after the CSV is read: either the missing
column early exit of lines 190-193 (with the `exit` status and the column
names it logs), or completion with the accumulated records and the files
written. -/
inductive BatchResult where
  | exited (status : Nat) (loggedCols : List String)
  | done (records : List DocRecord) (files : List String)
deriving Repr, BEq

/-- Model of `main` from line 190 on: if the URL column is absent the
script logs the available columns and calls `exit(0)`; otherwise it runs
the row loop and writes `content.csv` from the accumulated records. -/
def mainModel (cols : List String) (urlCol : String)
    (rows : List (String × UrlEnv)) : BatchResult :=
  if urlCol ∈ cols then .done (batchRecords rows) (batchFiles rows)
  else .exited 0 cols

mutual

/-- A node surviving `decomposeN` contains no script or style element. -/
theorem cleanN_decomposeN : (n : HNode) → ∀ m, decomposeN n = some m → cleanN m = true
  | .htext s => by intro m h; simp [decomposeN] at h; subst h; simp [cleanN]
  | .helem tag cs => by
      intro m h
      simp only [decomposeN] at h
      by_cases htag : tag == "script" || tag == "style"
      · simp [htag] at h
      · simp only [htag, if_neg] at h
        simp at htag
        cases h
        simp [cleanN, htag.1, htag.2, cleanL_decomposeList cs]

/-- A decomposed forest contains no script or style element. -/
theorem cleanL_decomposeList : (l : List HNode) → cleanL (decomposeList l) = true
  | [] => by simp [decomposeList, cleanL]
  | n :: rest => by
      simp only [decomposeList]
      cases hd : decomposeN n with
      | none => exact cleanL_decomposeList rest
      | some m =>
          simp [cleanL, cleanN_decomposeN n m hd, cleanL_decomposeList rest]

end

/-- One loop iteration appends exactly the row's record, if any. -/
theorem runRow_eq (acc : List DocRecord) (r : String × UrlEnv) :
    runRow acc r = acc ++ (rowRecord r).toList := by
  unfold runRow rowRecord
  cases processURL r.1 r.2 with
  | error e => simp
  | ok o => cases o <;> simp

/-- The loop is a fold that appends each successful row's record. -/
theorem foldl_runRow_eq (rows : List (String × UrlEnv)) :
    ∀ acc, rows.foldl runRow acc = acc ++ rows.filterMap rowRecord := by
  induction rows with
  | nil => intro acc; simp
  | cons r rest ih =>
      intro acc
      rw [List.foldl_cons, runRow_eq, ih, List.filterMap_cons]
      cases h : rowRecord r <;> simp [h]

/-- The final `content` is the input rows filtered down to their records. -/
theorem batchRecords_eq (rows : List (String × UrlEnv)) :
    batchRecords rows = rows.filterMap rowRecord := by
  unfold batchRecords
  rw [foldl_runRow_eq]
  simp

/-- The batch produces one record per successful row. -/
theorem length_batchRecords (rows : List (String × UrlEnv)) :
    (batchRecords rows).length = rows.countP rowSuccess := by
  rw [batchRecords_eq]
  induction rows with
  | nil => rfl
  | cons r rest ih =>
      rw [List.filterMap_cons, List.countP_cons]
      cases h : rowRecord r with
      | none =>
          have hs : rowSuccess r = false := by simp [rowSuccess, h]
          simp [hs, ih]
      | some d =>
          have hs : rowSuccess r = true := by simp [rowSuccess, h]
          simp [hs, ih]

/-- Claim C1 (code bug): on a PDF whose pages read successfully,
`pdfToText` computes the cleaned page text (here `"a b c d"` from pages
`"a,b"` and `"c  d"`) but returns Python `None`, because the function
body ends without a `return` statement. -/
theorem pdfToText_missing_return :
    pdfToText (PdfOpen.pages [some "a,b", some "c  d"]) = Except.ok none ∧
    pdfTextCleaned [some "a,b", some "c  d"] = "a b c d" ∧
    pdfToText (PdfOpen.pages [some "a,b", some "c  d"]) ≠
      Except.ok (some (pdfTextCleaned [some "a,b", some "c  d"])) := by
  refine ⟨rfl, rfl, fun hcon => ?_⟩
  exact Option.noConfusion (Except.ok.inj hcon)

/-- Claim C2, counterexample: a PDF whose file cannot be opened makes
extraction raise to its caller (the `open` at line 72 sits above the
`try`), rather than return an empty string. -/
theorem getTextFromFile_openFail_raises :
    getTextFromFile ".pdf" PdfOpen.openFail none = Except.error () := rfl

/-- Claim C2, amended: extraction does not raise provided the stored
file can be opened; a PDF that opens but cannot be parsed yields the
empty string rather than an exception. -/
theorem getTextFromFile_no_raise_when_openable (ext : String) (p : PdfOpen)
    (h : Option (List HNode)) (hp : p ≠ PdfOpen.openFail) (hh : h ≠ none) :
    (∃ t, getTextFromFile ext p h = Except.ok t) ∧
    (ext = ".pdf" → p = PdfOpen.parseFail →
      getTextFromFile ext p h = Except.ok (some "")) := by
  unfold getTextFromFile
  cases he : ext == ".pdf" with
  | true =>
      cases p with
      | openFail => exact absurd rfl hp
      | parseFail => exact ⟨⟨some "", rfl⟩, fun _ _ => rfl⟩
      | pages ps =>
          refine ⟨⟨none, rfl⟩, fun _ hpp => ?_⟩
          cases hpp
  | false =>
      cases h with
      | none => exact absurd rfl hh
      | some doc =>
          refine ⟨⟨some (getTextfromHTML doc), rfl⟩, fun hext _ => ?_⟩
          rw [hext] at he
          simp at he

/-- Claim C2 witness: a parse-failing but openable PDF yields `""`. -/
theorem getTextFromFile_no_raise_witness :
    getTextFromFile ".pdf" PdfOpen.parseFail (some []) = Except.ok (some "") :=
  (getTextFromFile_no_raise_when_openable ".pdf" PdfOpen.parseFail (some [])
    (by decide) (fun hcon => by cases hcon)).2 rfl rfl

/-- Claim C3: `getUrl` returns `True` exactly when the response completed
and its body was written to the destination file; a raised exception from
the request or the write yields `False`. -/
theorem getUrl_success_iff (ev : FetchEvent) :
    (getUrl ev = true ↔ ∃ s b, ev = FetchEvent.success s b ∧ fetchWritten ev = some b) ∧
    getUrl FetchEvent.netError = false ∧
    (∀ s b, getUrl (FetchEvent.writeError s b) = false) := by
  refine ⟨?_, rfl, fun s b => rfl⟩
  cases ev with
  | netError => simp [getUrl]
  | writeError s b => simp [getUrl]
  | success s b => exact iff_of_true rfl ⟨s, b, rfl, rfl⟩

/-- Claim C3 witness: a completed response writes its body and returns
`True`. -/
theorem getUrl_success_iff_witness :
    getUrl (FetchEvent.success 200 "abc") = true ∧
    fetchWritten (FetchEvent.success 200 "abc") = some "abc" :=
  ⟨(getUrl_success_iff (FetchEvent.success 200 "abc")).1.mpr ⟨200, "abc", rfl, rfl⟩, rfl⟩

/-- Claim C4, counterexample: for `https://example.com/doc.pdf?v=2` the
URL's path component ends in `.pdf`, yet the code derives extension
`.html`, because `Path(url).suffix` sees the query string. -/
theorem ext_query_counterexample :
    urlPathComponent "https://example.com/doc.pdf?v=2" = "https://example.com/doc.pdf" ∧
    strEndsWith "https://example.com/doc.pdf" ".pdf" = true ∧
    (deriveNameExt "https://example.com/doc.pdf?v=2").2 = ".html" :=
  ⟨rfl, rfl, rfl⟩

/-- Claim C4, amended: the extension is `.pdf` exactly when the
`Path`-suffix of the whole trimmed URL string (query string included) is
`.pdf`; every other URL gets `.html`. -/
theorem deriveNameExt_pdf_iff (url : String) :
    ((deriveNameExt url).2 = ".pdf" ↔ pathSuffix (pyStrip url) = ".pdf") ∧
    ((deriveNameExt url).2 = ".pdf" ∨ (deriveNameExt url).2 = ".html") := by
  unfold deriveNameExt
  by_cases hc : pathSuffix (pyStrip url) = ".pdf"
  · simp [hc]
  · simp [hc]

/-- Claim C4 witness: a clean `.pdf` URL gets extension `.pdf`. -/
theorem deriveNameExt_pdf_iff_witness :
    (deriveNameExt "https://example.com/b.pdf").2 = ".pdf" :=
  (deriveNameExt_pdf_iff "https://example.com/b.pdf").1.mpr rfl

/-- Claim C5, counterexample: with both fetches succeeding, the second
URL's stored file is `doc.html`, not the claimed `doc_.pdf`. -/
theorem batch_files_counterexample :
    batchFiles
      [("https://example.com/a.html",
        ⟨FetchEvent.success 200 "x", PdfOpen.parseFail, some [HNode.htext "hello a"]⟩),
       ("https://example.com/doc.pdf?v=2",
        ⟨FetchEvent.success 200 "y", PdfOpen.parseFail, some [HNode.htext "hello b"]⟩)]
      = ["a.html", "doc.html"] ∧
    ¬ ("doc_.pdf" ∈ (["a.html", "doc.html"] : List String)) :=
  ⟨rfl, by decide⟩

/-- Claim C5, amended: that input produces exactly the files `a.html`
and `doc.html` and two records named `a` and `doc`, both with extension
`.html`. -/
theorem batch_example_run :
    mainModel ["link"] "link"
      [("https://example.com/a.html",
        ⟨FetchEvent.success 200 "x", PdfOpen.parseFail, some [HNode.htext "hello a"]⟩),
       ("https://example.com/doc.pdf?v=2",
        ⟨FetchEvent.success 200 "y", PdfOpen.parseFail, some [HNode.htext "hello b"]⟩)]
      = BatchResult.done
          [⟨"a", ".html", "https://example.com/a.html", some "hello a"⟩,
           ⟨"doc", ".html", "https://example.com/doc.pdf?v=2", some "hello b"⟩]
          ["a.html", "doc.html"] := by
  rfl

/-- Claim C6, counterexample: with the URL column absent the script does
exit before processing any row and logs the column names, but the call is
`exit(0)`: the exit status is zero, not a non-zero-equivalent. -/
theorem missing_column_exit_zero :
    mainModel ["a"] "link"
      [("https://example.com/doc.pdf",
        ⟨FetchEvent.success 200 "x", PdfOpen.parseFail, some []⟩)]
      = BatchResult.exited 0 ["a"] := by
  rfl

/-- Claim C6, amended: a missing URL column terminates the batch before
any row is processed, with zero records and zero files, logging the
available column names, and exiting with status `0`. -/
theorem mainModel_missing_column (cols : List String) (urlCol : String)
    (rows : List (String × UrlEnv)) (h : urlCol ∉ cols) :
    mainModel cols urlCol rows = BatchResult.exited 0 cols := by
  unfold mainModel
  rw [if_neg h]

/-- Claim C6 witness. -/
theorem mainModel_missing_column_witness :
    mainModel ["a", "b"] "link" [] = BatchResult.exited 0 ["a", "b"] :=
  mainModel_missing_column ["a", "b"] "link" [] (by decide)

/-- Claim C7: when exactly one row fails (fetch failure, `None`, or a
raised exception) the batch still processes every row and produces
exactly N-1 records, the failed row simply omitted. -/
theorem batch_row_isolation (rows : List (String × UrlEnv))
    (h : rows.countP (fun r => !(rowSuccess r)) = 1) :
    (batchRecords rows).length = rows.length - 1 ∧
    batchRecords rows = rows.filterMap rowRecord := by
  refine ⟨?_, batchRecords_eq rows⟩
  have hlen : rows.length = rows.countP rowSuccess + rows.countP (fun r => !(rowSuccess r)) := by
    simpa using List.length_eq_countP_add_countP (l := rows) rowSuccess
  rw [length_batchRecords]
  omega

/-- Claim C7 witness: one unreachable URL among two yields one record. -/
theorem batch_row_isolation_witness :
    (batchRecords
      [("https://example.com/a.html",
        ⟨FetchEvent.success 200 "x", PdfOpen.parseFail, some [HNode.htext "ok"]⟩),
       ("https://example.com/b.html",
        ⟨FetchEvent.netError, PdfOpen.parseFail, some []⟩)]).length = 1 := by
  have h := batch_row_isolation
    [("https://example.com/a.html",
      ⟨FetchEvent.success 200 "x", PdfOpen.parseFail, some [HNode.htext "ok"]⟩),
     ("https://example.com/b.html",
      ⟨FetchEvent.netError, PdfOpen.parseFail, some []⟩)] (by rfl)
  simpa using h.1

/-- Claim C8: HTML extraction removes every script and style element
before collecting text, and the result is the newline-join of the
non-empty stripped chunks (lines split on double spaces), so it contains
no blank lines. -/
theorem getTextfromHTML_spec (doc : List HNode) :
    cleanL (decomposeList doc) = true ∧
    ∃ chunks : List String, (∀ c ∈ chunks, c ≠ "") ∧
      getTextfromHTML doc = String.intercalate "\n" chunks ∧
      chunks = (htmlChunks (getTextLs (decomposeList doc))).filter (fun c => !(c == "")) := by
  refine ⟨cleanL_decomposeList doc,
    (htmlChunks (getTextLs (decomposeList doc))).filter (fun c => !(c == "")),
    ?_, rfl, rfl⟩
  intro c hc
  have hmem := List.of_mem_filter hc
  simpa using hmem

/-- Claim C8 witness: script text is dropped, remaining text kept. -/
theorem getTextfromHTML_spec_witness :
    cleanL (decomposeList
      [HNode.helem "script" [HNode.htext "evil"], HNode.htext "hi"]) = true ∧
    getTextfromHTML [HNode.helem "script" [HNode.htext "evil"], HNode.htext "hi"] = "hi" :=
  ⟨(getTextfromHTML_spec [HNode.helem "script" [HNode.htext "evil"], HNode.htext "hi"]).1, rfl⟩

/-- Claim C9: the output rows are exactly the input rows' records in
input order with failures omitted, each appended immediately on
success. -/
theorem batch_output_order (rows : List (String × UrlEnv)) :
    batchRecords rows = rows.filterMap rowRecord ∧
    ∀ r, batchRecords (rows ++ [r]) = batchRecords rows ++ (rowRecord r).toList := by
  refine ⟨batchRecords_eq rows, fun r => ?_⟩
  rw [batchRecords_eq, batchRecords_eq, List.filterMap_append]
  cases h : rowRecord r <;> simp [h]

/-- Claim C10: `url_count` is computed as the row count plus one, so the
startup line and every progress line display a total that overstates the
batch size by one. -/
theorem url_count_off_by_one (rows : List (String × UrlEnv)) :
    urlCount rows = rows.length + 1 ∧
    rows.length < urlCount rows ∧
    ∀ i, progressField i (urlCount rows) =
      pyLjust (toString (i + 1) ++ "/" ++ toString (rows.length + 1)) 10 :=
  ⟨rfl, Nat.lt_succ_self _, fun _ => rfl⟩

end URLToDocument
